import Mathlib

/-!
Shallow embedding of the OCPP session handler of the ev-server repository
(`src/server/ocpp/services/OCPPService.ts`) and proofs about its behaviour.

Conventions of the embedding:
* timestamps are milliseconds since the epoch, as `Int` (JavaScript `Date.getTime()`);
* meter readings, watts, volts, amps and state of charge are `Int`;
* JavaScript `undefined` / absent optional fields become `Option`;
* a JavaScript string field that the source tests for truthiness is modelled as
  `Option String` (`none` stands for `undefined` or the empty string);
* handlers that catch every exception and answer a protocol-shaped rejection are
  modelled as total functions returning the response together with the storage
  state as it stands when the handler returns (writes performed before a failure
  are kept, exactly as in the source);
* persistence (the document store) is modelled as a `Storage` value threaded
  through the handlers; external integrations that cannot fail the handler
  (logging, notifications, roaming) are omitted, and external predicates
  (authorization, the inactivity classifier) are parameters of `Env`.
-/

namespace EvServer

/-- OCPP registration status (`RegistrationStatus` in the source). -/
inductive RegistrationStatus where
  | accepted
  | pending
  | rejected
deriving DecidableEq

/-- OCPP protocol version of a station. -/
inductive OCPPVersion where
  | v15
  | v16
deriving DecidableEq

/-- OCPP connector status (`ChargePointStatus`). -/
inductive ChargePointStatus where
  | available
  | preparing
  | charging
  | suspendedEV
  | suspendedEVSE
  | finishing
  | reserved
  | unavailable
  | faulted
deriving DecidableEq

/-- OCPP meter-value reading context (`OCPPReadingContext`). -/
inductive ReadingContext where
  | samplePeriodic
  | sampleClock
  | transactionBegin
  | transactionEnd
  | interruptionBegin
  | interruptionEnd
  | other
deriving DecidableEq

/-- OCPP meter-value measurand (`OCPPMeasurand`), restricted to those the service handles. -/
inductive Measurand where
  | energyActiveImportRegister
  | powerActiveImport
  | currentImport
  | voltage
  | stateOfCharge
  | signedData
deriving DecidableEq

/-- OCPP phase tag of a sampled value (`OCPPPhase`). -/
inductive Phase where
  | l1
  | l2
  | l3
  | l1N
  | l2N
  | l3N
  | l1L2
  | l2L3
  | l3L1
deriving DecidableEq

/-- OCPP unit of measure of a sampled value (`OCPPUnitOfMeasure`), restricted. -/
inductive UnitOfMeasure where
  | wattHour
  | kiloWattHour
  | watt
  | kiloWatt
  | amp
  | volt
  | percent
deriving DecidableEq

/-- AC/DC current type of a charge point (`CurrentType`). -/
inductive CurrentType where
  | ac
  | dc
deriving DecidableEq

/-- Severity of accumulated inactivity (`InactivityStatus`). -/
inductive InactivityStatus where
  | info
  | warning
  | error
deriving DecidableEq

/-- Source of the current limit attached to a consumption (`ConnectorCurrentLimitSource`). -/
inductive ConnectorCurrentLimitSource where
  | chargingProfile
  | staticLimitation
  | connector
deriving DecidableEq

/-- OCPP `idTagInfo.status` values the service produces. -/
inductive OCPPAuthorizationStatus where
  | accepted
  | blocked
  | expired
  | invalid
deriving DecidableEq

/-- Attribute block of a normalized meter value (`OCPPAttribute`). -/
structure OCPPAttributeData where
  context : ReadingContext
  measurand : Measurand
  phase : Option Phase
  unitOfMeasure : UnitOfMeasure
deriving DecidableEq

/-- A normalized meter value (`OCPPNormalizedMeterValue` restricted to the fields
the service reads): timestamp in ms, numeric value, attribute block (source field `attribute`). -/
structure NormalizedMeterValue where
  timestamp : Int
  value : Int
  attr : OCPPAttributeData
deriving DecidableEq

/-- The `transaction.lastConsumption` block: the last known cumulative meter reading. -/
structure LastConsumption where
  value : Int
  timestamp : Int
deriving DecidableEq

/-- The `transaction.remotestop` block: a central remote-stop order (tag + timestamp). -/
structure RemoteStop where
  tagID : String
  timestamp : Int
deriving DecidableEq

/-- The `stop` block written on a transaction when it terminates. -/
structure TransactionStop where
  timestamp : Int
  meterStop : Int
  tagID : String
  totalConsumptionWh : Int
  totalInactivitySecs : Int
  totalDurationSecs : Int
  extraInactivitySecs : Int
  extraInactivityComputed : Bool
  inactivityStatus : InactivityStatus
  stateOfCharge : Int
deriving DecidableEq

/-- A charging transaction (`Transaction` in the source), restricted to the fields
the OCPP service reads or writes. -/
structure Transaction where
  id : Nat
  chargeBoxID : String
  connectorId : Nat
  tagID : String
  meterStart : Int
  timestamp : Int
  numberOfMeterValues : Nat
  lastConsumption : Option LastConsumption
  currentTotalConsumptionWh : Int
  currentTotalInactivitySecs : Int
  stateOfCharge : Int
  currentStateOfCharge : Int
  currentInstantWatts : Int
  currentInstantWattsL1 : Int
  currentInstantWattsL2 : Int
  currentInstantWattsL3 : Int
  currentInstantWattsDC : Int
  currentInstantVolts : Int
  currentInstantVoltsL1 : Int
  currentInstantVoltsL2 : Int
  currentInstantVoltsL3 : Int
  currentInstantVoltsDC : Int
  currentInstantAmps : Int
  currentInstantAmpsL1 : Int
  currentInstantAmpsL2 : Int
  currentInstantAmpsL3 : Int
  currentInstantAmpsDC : Int
  signedData : Int
  currentSignedData : Int
  transactionEndReceived : Bool
  stop : Option TransactionStop
  remotestop : Option RemoteStop
deriving DecidableEq

/-- A connector of a charging station (`Connector`), restricted. -/
structure Connector where
  connectorId : Nat
  status : ChargePointStatus
  errorCode : String
  info : String
  currentTransactionID : Nat
  currentTransactionDate : Option Int
  currentTagID : Option String
  userID : Option String
  currentInstantWatts : Int
  currentTotalConsumptionWh : Int
  currentTotalInactivitySecs : Int
  currentStateOfCharge : Int
  currentInactivityStatus : InactivityStatus
deriving DecidableEq

/-- A charging station (`ChargingStation`), restricted to the fields the OCPP
service reads or writes. `coordinates` models the length-2 GPS coordinate array. -/
structure ChargingStation where
  id : String
  chargePointVendor : String
  chargePointModel : String
  chargePointSerialNumber : Option String
  chargeBoxSerialNumber : Option String
  firmwareVersion : Option String
  ocppVersion : OCPPVersion
  registrationStatus : RegistrationStatus
  issuer : Bool
  deleted : Bool
  lastReboot : Int
  lastSeen : Int
  siteAreaID : Option String
  siteID : Option String
  coordinates : Option (Int × Int)
  connectors : List Connector
deriving DecidableEq

/-- The persisted state the stop-transaction and status-notification handlers touch:
the transaction collection, the (single relevant) charging-station record and a
count of persisted consumption rows. -/
structure Storage where
  transactions : List Transaction
  station : ChargingStation
  consumptionsSaved : Nat
deriving DecidableEq

/-- External dependencies of the stop-transaction and status-notification handlers:
the wall clock, the outcome of `Authorizations.isAuthorizedToStopTransaction`, an
injected storage failure for the transaction write, and the inactivity classifier
`Utils.getInactivityStatusLevel` (a consumed external predicate, §6 of the spec). -/
structure Env where
  now : Int
  authorizeStopOk : Bool
  saveTransactionFails : Bool
  inactivityLevel : Int → InactivityStatus

/-- An OCPP StopTransaction request (`OCPPStopTransactionRequestExtended`, restricted).
`idTag := none` models an absent or empty tag (falsy in the source). -/
structure StopTransactionRequest where
  transactionId : Nat
  idTag : Option String
  meterStop : Int
  timestamp : Int
deriving DecidableEq

/-- An OCPP StopTransaction response: `idTagInfo.status`. -/
structure StopTransactionResponse where
  status : OCPPAuthorizationStatus
deriving DecidableEq

/-- Embedding of `TransactionStorage.getTransaction`: look the transaction up by id. -/
def findTransaction (transactions : List Transaction) (txId : Nat) : Option Transaction :=
  transactions.find? (fun t => t.id == txId)

/-- Embedding of `TransactionStorage.saveTransaction` on an existing record: replace every record
carrying the id. -/
def replaceTransaction (transactions : List Transaction) (t : Transaction) : List Transaction :=
  transactions.map (fun x => if x.id == t.id then t else x)

/-- Embedding of `OCPPService.getStopTransactionTagId`: prefer the remote-stop tag when the
remote stop was issued less than 60 seconds ago, then the request tag, then the
tag that started the transaction. -/
def getStopTransactionTagId (env : Env) (stopReq : StopTransactionRequest)
    (transaction : Transaction) : String :=
  match transaction.remotestop with
  | some rs =>
    if env.now - rs.timestamp < 60000 then rs.tagID
    else match stopReq.idTag with
      | some tag => tag
      | none => transaction.tagID
  | none =>
    match stopReq.idTag with
    | some tag => tag
    | none => transaction.tagID

/-- Modelled from the spec: `OCPPUtils.checkAndFreeChargingStationConnector` is not
among the provided sources. Spec §4.D.3: free the connector by zeroing its
live-session fields and setting `currentTransactionID = 0`; `status` is left
unchanged. -/
def checkAndFreeChargingStationConnector (cs : ChargingStation) (connectorId : Nat) :
    ChargingStation :=
  { cs with connectors := cs.connectors.map (fun c =>
      if c.connectorId == connectorId then
        { c with
          currentTransactionID := 0
          currentTransactionDate := none
          currentTagID := none
          userID := none
          currentInstantWatts := 0
          currentTotalConsumptionWh := 0
          currentTotalInactivitySecs := 0
          currentStateOfCharge := 0
          currentInactivityStatus := InactivityStatus.info }
      else c) }

/-- Modelled from the spec: `OCPPUtils.updateTransactionWithStopTransactionAndStopMeterValues`
is not among the provided sources. Spec §4.D.3 and §3: write the `stop` block with
the stop timestamp, `meterStop`, the stopper tag, simple-accounting totals
(`totalConsumptionWh = meterStop − meterStart`), the accumulated inactivity and its
classified severity, and the last state of charge. -/
def updateTransactionWithStop (env : Env) (transaction : Transaction) (meterStop : Int)
    (stopTimestamp : Int) (tagId : String) : Transaction :=
  { transaction with stop := some {
      timestamp := stopTimestamp
      meterStop := meterStop
      tagID := tagId
      totalConsumptionWh := meterStop - transaction.meterStart
      totalInactivitySecs := transaction.currentTotalInactivitySecs
      totalDurationSecs := (stopTimestamp - transaction.timestamp).fdiv 1000
      extraInactivitySecs := 0
      extraInactivityComputed := false
      inactivityStatus := env.inactivityLevel transaction.currentTotalInactivitySecs
      stateOfCharge := transaction.currentStateOfCharge } }

/-- Embedding of `OCPPService.handleStopTransaction`, in source order:
(1) `transactionId == 0` is answered `Accepted` with no effect;
(2) the transaction is loaded, absence raises (caught: `Invalid`, no effect);
(3) the stopper tag is resolved and, unless the stop comes from the central
    system, authorized (failure is caught: `Invalid`, no effect);
(4) a transaction whose `stop` block is already set raises (caught: `Invalid`,
    no effect);
(5) the connector is freed, `lastSeen` bumped and the station persisted;
(6) in soft-stop mode `meterStop` is replaced by the last known cumulative value
    (0 when there is none);
(7) the closing consumption is built and persisted and the `stop` block written;
(8) the transaction write can fail (injected through `Env`); the failure is
    caught after the station write, so the response is `Invalid` while the freed
    connector stays persisted;
(9) otherwise the transaction is persisted and the response is `Accepted`. -/
def handleStopTransaction (env : Env) (stopReq : StopTransactionRequest)
    (isSoftStop stoppedByCentralSystem : Bool) (storage : Storage) :
    StopTransactionResponse × Storage :=
  if stopReq.transactionId = 0 then
    ({ status := OCPPAuthorizationStatus.accepted }, storage)
  else
    match findTransaction storage.transactions stopReq.transactionId with
    | none => ({ status := OCPPAuthorizationStatus.invalid }, storage)
    | some transaction =>
      let tagId := getStopTransactionTagId env stopReq transaction
      if stoppedByCentralSystem = false ∧ env.authorizeStopOk = false then
        ({ status := OCPPAuthorizationStatus.invalid }, storage)
      else if transaction.stop.isSome then
        ({ status := OCPPAuthorizationStatus.invalid }, storage)
      else
        let station := checkAndFreeChargingStationConnector storage.station transaction.connectorId
        let station := { station with lastSeen := env.now }
        let storage1 := { storage with station := station }
        let meterStop :=
          if isSoftStop then
            match transaction.lastConsumption with
            | some lc => lc.value
            | none => 0
          else stopReq.meterStop
        let stoppedTransaction :=
          updateTransactionWithStop env transaction meterStop stopReq.timestamp tagId
        let storage2 := { storage1 with consumptionsSaved := storage1.consumptionsSaved + 1 }
        if env.saveTransactionFails then
          ({ status := OCPPAuthorizationStatus.invalid }, storage2)
        else
          ({ status := OCPPAuthorizationStatus.accepted },
            { storage2 with
              transactions := replaceTransaction storage2.transactions stoppedTransaction })

/-- The predicate for an active (open) transaction of `(station, connectorId)`:
the transaction belongs to the pair and has no `stop` block. -/
def isActiveOn (chargeBoxID : String) (connectorId : Nat) (t : Transaction) : Bool :=
  t.chargeBoxID == chargeBoxID && t.connectorId == connectorId && t.stop.isNone

/-- Modelled from the spec: `TransactionStorage.getActiveTransaction` is not among
the provided sources; spec §6 lists it as "get active transaction on
(station, connector)": the open transaction for the pair. -/
def getActiveTransaction (transactions : List Transaction) (chargeBoxID : String)
    (connectorId : Nat) : Option Transaction :=
  transactions.find? (isActiveOn chargeBoxID connectorId)

/-- Modelled from the spec: `TransactionStorage.deleteTransaction` removes the
transaction record by id. -/
def deleteTransaction (storage : Storage) (txId : Nat) : Storage :=
  { storage with transactions := storage.transactions.filter (fun t => !(t.id == txId)) }

/-- Number of active transactions of `(station, connectorId)` in storage; the
termination measure of the cleanup loop. -/
def countActive (transactions : List Transaction) (chargeBoxID : String)
    (connectorId : Nat) : Nat :=
  transactions.countP (isActiveOn chargeBoxID connectorId)

/-- The last known cumulative meter reading of a transaction: the value of
`lastConsumption` when present, the start reading otherwise. -/
def lastKnownCumulative (t : Transaction) : Int :=
  match t.lastConsumption with
  | some lc => lc.value
  | none => t.meterStart

/-- The StopTransaction request `stopOrDeleteActiveTransactions` synthesizes to
stop an active transaction: `meterStop` is the last known cumulative value and
the timestamp the last consumption's (the start timestamp when there is none). -/
def softStopRequest (t : Transaction) : StopTransactionRequest :=
  { transactionId := t.id
    idTag := none
    meterStop := lastKnownCumulative t
    timestamp :=
      match t.lastConsumption with
      | some lc => lc.timestamp
      | none => t.timestamp }

/-- Embedding of `OCPPService.stopOrDeleteActiveTransactions`, the do-while loop,
with explicit fuel (`none` marks fuel exhaustion; the termination theorem shows a
fuel of twice the number of active transactions plus two always suffices):
fetch the active transaction of `(station, connectorId)`; return when none;
return when its id equals the last checked id (the infinite-loop defense);
delete it when `currentTotalConsumptionWh ≤ 0`; otherwise stop it through a
recursive `handleStopTransaction` flagged as stopped-by-central-system, with
`meterStop` the last known cumulative value; remember the id and loop. -/
def stopOrDeleteActiveTransactions (env : Env) (chargeBoxID : String) (connectorId : Nat) :
    Nat → Option Nat → Storage → Option Storage
  | 0, _, _ => none
  | fuel + 1, lastCheckedTransactionID, storage =>
    match getActiveTransaction storage.transactions chargeBoxID connectorId with
    | none => some storage
    | some activeTransaction =>
      if lastCheckedTransactionID = some activeTransaction.id then some storage
      else if activeTransaction.currentTotalConsumptionWh ≤ 0 then
        stopOrDeleteActiveTransactions env chargeBoxID connectorId fuel
          (some activeTransaction.id) (deleteTransaction storage activeTransaction.id)
      else
        stopOrDeleteActiveTransactions env chargeBoxID connectorId fuel
          (some activeTransaction.id)
          (handleStopTransaction env (softStopRequest activeTransaction) false true storage).2

/-- A registration token (`RegistrationToken`): spec §3 makes `expirationDate`,
`revocationDate` and `siteAreaId` optional. -/
structure RegistrationToken where
  token : String
  expirationDate : Option Int
  revocationDate : Option Int
  siteAreaID : Option String
deriving DecidableEq

/-- A site area, restricted to what BootNotification reads: its site and its
coordinates (`none` models an address without a length-2 coordinate array). -/
structure SiteArea where
  id : String
  siteID : String
  coordinates : Option (Int × Int)
deriving DecidableEq

/-- An OCPP BootNotification request (`OCPPBootNotificationRequestExtended`),
restricted to the attributes the handler copies or compares. -/
structure BootNotificationRequest where
  chargePointVendor : String
  chargePointModel : String
  chargePointSerialNumber : Option String
  chargeBoxSerialNumber : Option String
  firmwareVersion : Option String
deriving DecidableEq

/-- The OCPP header context of a BootNotification (`OCPPHeader`, restricted). -/
structure BootHeaders where
  chargeBoxIdentity : String
  token : Option String
  ocppVersion : OCPPVersion
deriving DecidableEq

/-- External state and configuration of the BootNotification handler: wall clock,
advertised heartbeat interval, the retry interval of a rejected boot
(`Constants.BOOT_NOTIFICATION_WAIT_TIME`), and the persisted token, site-area
and station collections. -/
structure BootEnv where
  now : Int
  heartbeatIntervalSecs : Int
  bootRejectRetrySecs : Int
  tokens : List RegistrationToken
  siteAreas : List SiteArea
  stations : List ChargingStation
deriving DecidableEq

/-- An OCPP BootNotification response. `currentTime` is a timestamp in ms. -/
structure BootNotificationResponse where
  status : RegistrationStatus
  currentTime : Int
  interval : Int
deriving DecidableEq

/-- Embedding of `ChargingStationStorage.getChargingStation`: look the station up by id. -/
def lookupStation (stations : List ChargingStation) (id : String) : Option ChargingStation :=
  stations.find? (fun cs => cs.id == id)

/-- Embedding of `RegistrationTokenStorage.getRegistrationToken`: look the token up. -/
def lookupToken (tokens : List RegistrationToken) (tk : String) : Option RegistrationToken :=
  tokens.find? (fun t => t.token == tk)

/-- Embedding of `SiteAreaStorage.getSiteArea`: look the site area up by id. -/
def lookupSiteArea (siteAreas : List SiteArea) (id : String) : Option SiteArea :=
  siteAreas.find? (fun sa => sa.id == id)

/-- Embedding of `ChargingStationStorage.saveChargingStation`: replace the record by id, or
append it when new. -/
def saveStation (stations : List ChargingStation) (cs : ChargingStation) :
    List ChargingStation :=
  if stations.any (fun x => x.id == cs.id) then
    stations.map (fun x => if x.id == cs.id then cs else x)
  else stations ++ [cs]

/-- The attribute-mismatch test of `handleBootNotification` for a known station:
vendor differs, or model differs, or both sides carry a serial number (truthy in
the source) and the serial numbers differ. -/
def bootAttributeMismatch (cs : ChargingStation) (boot : BootNotificationRequest) : Bool :=
  cs.chargePointVendor != boot.chargePointVendor ||
  cs.chargePointModel != boot.chargePointModel ||
  (cs.chargePointSerialNumber.isSome && boot.chargePointSerialNumber.isSome &&
    cs.chargePointSerialNumber != boot.chargePointSerialNumber)

/-- The token validation of `handleBootNotification` for an unknown station, in
source order. The source rejects with `!token || !token.expirationDate ||
moment().isAfter(token.expirationDate)` — so a token without an expiration date
is rejected — and then with `token.revocationDate ||
moment().isAfter(token.revocationDate)`, whose first disjunct rejects any token
carrying a revocation date (when `revocationDate` is `undefined`,
`moment().isAfter(undefined)` compares now with now and is false at millisecond
granularity). `none` is the error outcome (caught by the handler). -/
def validateRegistrationToken (env : BootEnv) (headers : BootHeaders) :
    Option RegistrationToken :=
  match headers.token with
  | none => none
  | some tk =>
    match lookupToken env.tokens tk with
    | none => none
    | some token =>
      match token.expirationDate with
      | none => none
      | some expiration =>
        if env.now > expiration then none
        else if token.revocationDate.isSome then none
        else some token

/-- The station record `handleBootNotification` creates for an unknown station
holding a valid token: the notification's attributes are copied, `issuer` and
`registrationStatus = Accepted` are set, `lastReboot`, `lastSeen` and the boot
timestamp are the server wall clock, and a token carrying a `siteAreaID` that
names a stored site area links the station to it and copies its coordinates. -/
def createStationFromBoot (env : BootEnv) (headers : BootHeaders)
    (boot : BootNotificationRequest) (token : RegistrationToken) : ChargingStation :=
  let base : ChargingStation :=
    { id := headers.chargeBoxIdentity
      chargePointVendor := boot.chargePointVendor
      chargePointModel := boot.chargePointModel
      chargePointSerialNumber := boot.chargePointSerialNumber
      chargeBoxSerialNumber := boot.chargeBoxSerialNumber
      firmwareVersion := boot.firmwareVersion
      ocppVersion := headers.ocppVersion
      registrationStatus := RegistrationStatus.accepted
      issuer := true
      deleted := false
      lastReboot := env.now
      lastSeen := env.now
      siteAreaID := none
      siteID := none
      coordinates := none
      connectors := [] }
  match token.siteAreaID with
  | some sid =>
    match lookupSiteArea env.siteAreas sid with
    | some siteArea =>
      { base with
        siteAreaID := some sid
        siteID := some siteArea.siteID
        coordinates := siteArea.coordinates }
    | none => base
  | none => base

/-- Embedding of `OCPPService.handleBootNotification` (station-registry part), in
source order. Unknown station: validate the registration token and create the
record. Known station: reject on attribute mismatch, otherwise update serial
numbers, firmware, `lastReboot`, re-accept and un-delete. Then the protocol
fields and `lastSeen` are set, the station is persisted, and the response is
`Accepted` with `currentTime` the reboot time and the configured heartbeat
interval. Every raised error is caught and answered `{Rejected, now,
bootRejectRetrySecs}` with no station written. The template application
(external `OCPPUtils.applyTemplateToChargingStation`) is modelled as reporting
no update, so the handler itself persists the station. -/
def handleBootNotification (env : BootEnv) (headers : BootHeaders)
    (boot : BootNotificationRequest) : BootNotificationResponse × List ChargingStation :=
  let rejected : BootNotificationResponse × List ChargingStation :=
    ({ status := RegistrationStatus.rejected
       currentTime := env.now
       interval := env.bootRejectRetrySecs }, env.stations)
  match lookupStation env.stations headers.chargeBoxIdentity with
  | none =>
    match validateRegistrationToken env headers with
    | none => rejected
    | some token =>
      ({ status := RegistrationStatus.accepted
         currentTime := env.now
         interval := env.heartbeatIntervalSecs },
       saveStation env.stations (createStationFromBoot env headers boot token))
  | some chargingStation =>
    if bootAttributeMismatch chargingStation boot then rejected
    else
      ({ status := RegistrationStatus.accepted
         currentTime := env.now
         interval := env.heartbeatIntervalSecs },
       saveStation env.stations
        { chargingStation with
          chargePointSerialNumber := boot.chargePointSerialNumber
          chargeBoxSerialNumber := boot.chargeBoxSerialNumber
          firmwareVersion := boot.firmwareVersion
          lastReboot := env.now
          registrationStatus := RegistrationStatus.accepted
          deleted := false
          ocppVersion := headers.ocppVersion
          lastSeen := env.now })

/-- External inputs of `updateTransactionWithMeterValues`: the station's current
type at the connector (`Utils.getChargingStationCurrentType`) and its number of
connected phases (`Utils.getNumberOfConnectedPhases`), both helpers outside the
provided sources. -/
structure MeterValueEnv where
  currentType : CurrentType
  numberOfConnectedPhases : Int
deriving DecidableEq

/-- The first-`Transaction.End` block of `updateTransactionWithMeterValues`:
clear the total, per-phase and DC instant watts, volts and amps, and flag
`transactionEndReceived`. (The source clears exactly these fifteen fields.) -/
def zeroInstantFields (t : Transaction) : Transaction :=
  { t with
    currentInstantWatts := 0
    currentInstantWattsL1 := 0
    currentInstantWattsL2 := 0
    currentInstantWattsL3 := 0
    currentInstantWattsDC := 0
    currentInstantVolts := 0
    currentInstantVoltsL1 := 0
    currentInstantVoltsL2 := 0
    currentInstantVoltsL3 := 0
    currentInstantVoltsDC := 0
    currentInstantAmps := 0
    currentInstantAmpsL1 := 0
    currentInstantAmpsL2 := 0
    currentInstantAmpsL3 := 0
    currentInstantAmpsDC := 0
    transactionEndReceived := true }

/-- Modelled from the spec: `OCPPUtils.updateSignedData` is not among the provided
sources; spec §4.D.2: a `SignedData` measurand at `Transaction.Begin` is stored
as the transaction's signed data, at `Transaction.End` as the stop signed data,
and is not treated as consumption. The flag tells the loop to `continue`. -/
def updateSignedData (t : Transaction) (mv : NormalizedMeterValue) : Bool × Transaction :=
  if mv.attr.measurand = Measurand.signedData then
    if mv.attr.context = ReadingContext.transactionBegin then
      (true, { t with signedData := mv.value })
    else if mv.attr.context = ReadingContext.transactionEnd then
      (true, { t with currentSignedData := mv.value })
    else (false, t)
  else (false, t)

/-- Modelled from the spec: `OCPPUtils.isEnergyActiveImportMeterValue` is not among
the provided sources; spec §4.D.2: the `Energy.Active.Import.Register` measurand
is the reading consumption derives from. -/
def isEnergyActiveImportMeterValue (mv : NormalizedMeterValue) : Bool :=
  mv.attr.measurand == Measurand.energyActiveImportRegister

/-- The per-value body of the `updateTransactionWithMeterValues` loop after the
first-`Transaction.End` block: signed data, then state of charge at
Begin and End (any other SoC context falls through every later branch unchanged,
as in the source, where no `continue` fires), then the `Transaction.End`
dispatch of voltage, power and current to the phase-resolved instant fields
(power normalized from kW to W; a phase-less current is multiplied by the number
of connected phases), then the energy measurand counts into
`numberOfMeterValues`. -/
def processMeterValueBody (envMV : MeterValueEnv) (t : Transaction)
    (mv : NormalizedMeterValue) : Transaction :=
  match updateSignedData t mv with
  | (true, signedUpdated) => signedUpdated
  | (false, _) =>
    if mv.attr.measurand = Measurand.stateOfCharge then
      if mv.attr.context = ReadingContext.transactionBegin then
        { t with stateOfCharge := mv.value }
      else if mv.attr.context = ReadingContext.transactionEnd then
        { t with currentStateOfCharge := mv.value }
      else t
    else if mv.attr.measurand = Measurand.voltage then
      if mv.attr.context = ReadingContext.transactionEnd then
        match envMV.currentType with
        | CurrentType.dc => { t with currentInstantVoltsDC := mv.value }
        | CurrentType.ac =>
          match mv.attr.phase with
          | some Phase.l1N | some Phase.l1 => { t with currentInstantVoltsL1 := mv.value }
          | some Phase.l2N | some Phase.l2 => { t with currentInstantVoltsL2 := mv.value }
          | some Phase.l3N | some Phase.l3 => { t with currentInstantVoltsL3 := mv.value }
          | some Phase.l1L2 | some Phase.l2L3 | some Phase.l3L1 => t
          | none => { t with currentInstantVolts := mv.value }
      else t
    else if mv.attr.measurand = Measurand.powerActiveImport then
      if mv.attr.context = ReadingContext.transactionEnd then
        let powerWatts :=
          if mv.attr.unitOfMeasure = UnitOfMeasure.kiloWatt then mv.value * 1000
          else mv.value
        match envMV.currentType with
        | CurrentType.dc => { t with currentInstantWattsDC := powerWatts }
        | CurrentType.ac =>
          match mv.attr.phase with
          | some Phase.l1N | some Phase.l1 => { t with currentInstantWattsL1 := powerWatts }
          | some Phase.l2N | some Phase.l2 => { t with currentInstantWattsL2 := powerWatts }
          | some Phase.l3N | some Phase.l3 => { t with currentInstantWattsL3 := powerWatts }
          | _ => { t with currentInstantWatts := powerWatts }
      else t
    else if mv.attr.measurand = Measurand.currentImport then
      if mv.attr.context = ReadingContext.transactionEnd then
        match envMV.currentType with
        | CurrentType.dc => { t with currentInstantAmpsDC := mv.value }
        | CurrentType.ac =>
          match mv.attr.phase with
          | some Phase.l1 => { t with currentInstantAmpsL1 := mv.value }
          | some Phase.l2 => { t with currentInstantAmpsL2 := mv.value }
          | some Phase.l3 => { t with currentInstantAmpsL3 := mv.value }
          | _ => { t with currentInstantAmps := mv.value * envMV.numberOfConnectedPhases }
      else t
    else if isEnergyActiveImportMeterValue mv then
      { t with numberOfMeterValues := t.numberOfMeterValues + 1 }
    else t

/-- One iteration of the `updateTransactionWithMeterValues` loop: on a
`Transaction.End` value, when `transactionEndReceived` is not yet set, first run
the clearing block, then the body. -/
def processMeterValue (envMV : MeterValueEnv) (t : Transaction)
    (mv : NormalizedMeterValue) : Transaction :=
  if mv.attr.context = ReadingContext.transactionEnd ∧ t.transactionEndReceived = false then
    processMeterValueBody envMV (zeroInstantFields t) mv
  else
    processMeterValueBody envMV t mv

/-- Embedding of `OCPPService.updateTransactionWithMeterValues`: fold the loop
body over the normalized meter values in order. -/
def updateTransactionWithMeterValues (envMV : MeterValueEnv) (t : Transaction)
    (meterValues : List NormalizedMeterValue) : Transaction :=
  meterValues.foldl (processMeterValue envMV) t

/-- An OCPP StatusNotification (`OCPPStatusNotificationRequestExtended`,
restricted). `timestamp := none` models a notification without the `timestamp`
property (`Utils.objectHasProperty` in the source). -/
structure StatusNotification where
  connectorId : Nat
  status : ChargePointStatus
  errorCode : String
  info : String
  timestamp : Option Int
deriving DecidableEq

/-- Modelled from the spec: `TransactionStorage.getLastTransactionFromChargingStation`
is not among the provided sources; spec §6 lists "get last transaction from
station/connector": the most recent transaction of the pair contribution order
(the last matching record). -/
def getLastTransaction (transactions : List Transaction) (chargeBoxID : String)
    (connectorId : Nat) : Option Transaction :=
  (transactions.filter (fun t =>
    t.chargeBoxID == chargeBoxID && t.connectorId == connectorId)).getLast?

/-- Embedding of `OCPPService.checkLastTransaction`: on an `Available` status
notification, fetch the last transaction of the connector; when it is completed
(`stop` set), and the notification carries a timestamp, and
`extraInactivityComputed` is not yet set, write
`extraInactivitySecs = floor((notificationTimestamp − stop.timestamp) / 1000)`,
flag `extraInactivityComputed` and reclassify the inactivity severity from the
combined inactivity; then persist the (possibly updated) transaction. A
transaction still open, or a non-`Available` status, changes nothing. -/
def checkLastTransaction (env : Env) (sn : StatusNotification) (connector : Connector)
    (storage : Storage) : Storage :=
  if sn.status = ChargePointStatus.available then
    match getLastTransaction storage.transactions storage.station.id connector.connectorId with
    | none => storage
    | some lastTransaction =>
      match lastTransaction.stop with
      | none => storage
      | some stopBlock =>
        let updatedTransaction :=
          match sn.timestamp with
          | none => lastTransaction
          | some notifTimestamp =>
            if stopBlock.extraInactivityComputed then lastTransaction
            else
              let extra := (notifTimestamp - stopBlock.timestamp).fdiv 1000
              { lastTransaction with stop := some { stopBlock with
                  extraInactivitySecs := extra
                  extraInactivityComputed := true
                  inactivityStatus :=
                    env.inactivityLevel (stopBlock.totalInactivitySecs + extra) } }
        { storage with
          transactions := replaceTransaction storage.transactions updatedTransaction }
  else storage

/-- The transaction as `checkLastTransaction` rewrites it when it attaches the
extra inactivity: the floored second difference between the notification
timestamp and the stop timestamp, the computed flag, and the reclassified
severity. -/
def transactionWithExtraInactivity (env : Env) (lt : Transaction) (sb : TransactionStop)
    (notifTs : Int) : Transaction :=
  { lt with stop := some { sb with
      extraInactivitySecs := (notifTs - sb.timestamp).fdiv 1000
      extraInactivityComputed := true
      inactivityStatus := env.inactivityLevel
        (sb.totalInactivitySecs + (notifTs - sb.timestamp).fdiv 1000) } }

/-- The configuration read by `checkNotificationEndOfCharge`
(`ChargingStationConfiguration`, restricted). -/
structure EndOfChargeConfig where
  notifEndOfChargeEnabled : Bool
  notifBeforeEndOfChargeEnabled : Bool
  notifBeforeEndOfChargePercent : Int
deriving DecidableEq

/-- A persisted consumption row, restricted to the fields
`checkNotificationEndOfCharge` reads. -/
structure ConsumptionRec where
  consumptionWh : Int
  limitSource : ConnectorCurrentLimitSource
  limitAmps : Int
deriving DecidableEq

/-- The notification kinds `checkNotificationEndOfCharge` can emit. -/
inductive ChargeNotification where
  | endOfCharge
  | optimalChargeReached
deriving DecidableEq

/-- The per-interval test of the zero-consumption end-of-charge branch: the
interval consumed nothing, and either its limit source is not a charging
profile or its limit amps reach the static per-phase minimum
(`StaticLimitAmps.MIN_LIMIT_PER_PHASE`, a constant outside the provided
sources, passed in) times the number of connected phases. -/
def endOfChargeIntervalOk (minLimitPerPhase numberOfConnectedPhases : Int)
    (c : ConsumptionRec) : Bool :=
  c.consumptionWh == 0 &&
  (!(c.limitSource == ConnectorCurrentLimitSource.chargingProfile) ||
    decide (minLimitPerPhase * numberOfConnectedPhases ≤ c.limitAmps))

/-- Embedding of `OCPPService.checkNotificationEndOfCharge`: evaluated on an open
transaction with more than one meter value and positive cumulative consumption;
with the end-of-charge notification enabled, a state of charge of 100 notifies
end-of-charge, otherwise the three most recent consumption rows (fetched sorted
by `startedAt` descending, passed here as `lastThree`) all passing
`endOfChargeIntervalOk` notify end-of-charge; with the end-of-charge
notification disabled, the optimal-charge notification fires when enabled and
the state of charge reaches the configured percentage. -/
def checkNotificationEndOfCharge (cfg : EndOfChargeConfig)
    (minLimitPerPhase numberOfConnectedPhases : Int) (t : Transaction)
    (lastThree : List ConsumptionRec) : Option ChargeNotification :=
  if t.stop.isSome then none
  else if t.numberOfMeterValues > 1 ∧ t.currentTotalConsumptionWh > 0 then
    if cfg.notifEndOfChargeEnabled = true ∧ t.currentTotalConsumptionWh > 0 then
      if t.currentStateOfCharge = 100 then some ChargeNotification.endOfCharge
      else if lastThree.all (endOfChargeIntervalOk minLimitPerPhase numberOfConnectedPhases) then
        some ChargeNotification.endOfCharge
      else none
    else if cfg.notifBeforeEndOfChargeEnabled = true ∧
        cfg.notifBeforeEndOfChargePercent ≤ t.currentStateOfCharge then
      some ChargeNotification.optimalChargeReached
    else none
  else none

/-- The vendor string `ChargerVendor.ABB` compared by the meter-value filter. -/
def vendorABB : String := "ABB"

/-- The return value of the filter callback in
`filterMeterValuesOnSpecificChargingStations` as JavaScript evaluates it: the
callback is an `async` arrow function, so every invocation returns a Promise
object; `Array.prototype.filter` keeps an element when the returned value is
truthy, and a Promise object is truthy whatever boolean it later resolves to.
The resolved boolean is kept as the (ignored) argument to make this explicit. -/
def asyncCallbackTruthy (_resolvedValue : Bool) : Bool :=
  true

/-- Embedding of `OCPPService.filterMeterValuesOnSpecificChargingStations`: for
every station that is not an ABB running OCPP 1.5, filter the normalized meter
values with the async callback that resolves to `false` on a `Sample.Clock`
context (and logs the removal) and to `true` otherwise. Because the callback is
async, `filter` tests the truthiness of the Promise, so the list is returned
unchanged. -/
def filterMeterValuesOnSpecificChargingStations (cs : ChargingStation)
    (values : List NormalizedMeterValue) : List NormalizedMeterValue :=
  if cs.chargePointVendor ≠ vendorABB ∨ cs.ocppVersion ≠ OCPPVersion.v15 then
    values.filter (fun mv =>
      asyncCallbackTruthy (!(mv.attr.context == ReadingContext.sampleClock)))
  else values

/-- The removal the source intends (its log reads "Removed Meter Value with
attribute context Sample.Clock") and the spec describes: drop the
`Sample.Clock` values. Stated only to exhibit the divergence. -/
def intendedClockFilter (values : List NormalizedMeterValue) : List NormalizedMeterValue :=
  values.filter (fun mv => !(mv.attr.context == ReadingContext.sampleClock))

/-- A consumption interval as the consumption builder derives it. -/
structure BuiltConsumption where
  startedAt : Int
  endedAt : Int
  consumptionWh : Int
  cumulatedConsumptionWh : Int
deriving DecidableEq

/-- Helper of `buildConsumptions`: walk the values carrying the anchor
`(timestamp, cumulative)`. -/
def buildConsumptionsAux (meterStart : Int) :
    Int → Int → List NormalizedMeterValue → List BuiltConsumption
  | _, _, [] => []
  | anchorTs, anchorWh, mv :: rest =>
    if isEnergyActiveImportMeterValue mv ∧ anchorTs < mv.timestamp then
      { startedAt := anchorTs
        endedAt := mv.timestamp
        consumptionWh := max 0 (mv.value - anchorWh)
        cumulatedConsumptionWh := mv.value - meterStart } ::
      buildConsumptionsAux meterStart mv.timestamp mv.value rest
    else buildConsumptionsAux meterStart anchorTs anchorWh rest

/-- Modelled from the spec: `OCPPUtils.createConsumptionsFromMeterValues` is not
among the provided sources; spec §4.E: starting from the anchor — the
transaction's `lastConsumption`, or `(start.timestamp, meterStart)` — each
`Energy.Active.Import.Register` value strictly after the anchor emits one
interval (consumption clamped at 0, cumulative relative to `meterStart`) and
advances the anchor; values at or before the anchor are skipped. -/
def buildConsumptions (t : Transaction) (values : List NormalizedMeterValue) :
    List BuiltConsumption :=
  match t.lastConsumption with
  | some lc => buildConsumptionsAux t.meterStart lc.timestamp lc.value values
  | none => buildConsumptionsAux t.meterStart t.timestamp t.meterStart values

/-- A connector with a running session, used as concrete test input. -/
def exampleConnector : Connector :=
  { connectorId := 1
    status := ChargePointStatus.charging
    errorCode := "NoError"
    info := ""
    currentTransactionID := 42
    currentTransactionDate := some 0
    currentTagID := some "TAG-1"
    userID := some "U1"
    currentInstantWatts := 7000
    currentTotalConsumptionWh := 1200
    currentTotalInactivitySecs := 0
    currentStateOfCharge := 50
    currentInactivityStatus := InactivityStatus.info }

/-- A charging station (not an ABB), used as concrete test input. -/
def exampleStation : ChargingStation :=
  { id := "CS-1"
    chargePointVendor := "Schneider"
    chargePointModel := "MODEL-X"
    chargePointSerialNumber := some "SER-1"
    chargeBoxSerialNumber := none
    firmwareVersion := some "1.0"
    ocppVersion := OCPPVersion.v16
    registrationStatus := RegistrationStatus.accepted
    issuer := true
    deleted := false
    lastReboot := 0
    lastSeen := 0
    siteAreaID := none
    siteID := none
    coordinates := none
    connectors := [exampleConnector] }

/-- An open transaction with consumption, used as concrete test input. -/
def exampleTransaction : Transaction :=
  { id := 42
    chargeBoxID := "CS-1"
    connectorId := 1
    tagID := "TAG-1"
    meterStart := 0
    timestamp := 0
    numberOfMeterValues := 3
    lastConsumption := some { value := 1200, timestamp := 180000 }
    currentTotalConsumptionWh := 1200
    currentTotalInactivitySecs := 0
    stateOfCharge := 20
    currentStateOfCharge := 50
    currentInstantWatts := 7000
    currentInstantWattsL1 := 2000
    currentInstantWattsL2 := 2500
    currentInstantWattsL3 := 2500
    currentInstantWattsDC := 0
    currentInstantVolts := 230
    currentInstantVoltsL1 := 230
    currentInstantVoltsL2 := 231
    currentInstantVoltsL3 := 229
    currentInstantVoltsDC := 0
    currentInstantAmps := 30
    currentInstantAmpsL1 := 10
    currentInstantAmpsL2 := 10
    currentInstantAmpsL3 := 10
    currentInstantAmpsDC := 0
    signedData := 0
    currentSignedData := 0
    transactionEndReceived := false
    stop := none
    remotestop := none }

/-- A stop block for a completed transaction, used as concrete test input. -/
def exampleStopBlock : TransactionStop :=
  { timestamp := 240000
    meterStop := 1200
    tagID := "TAG-1"
    totalConsumptionWh := 1200
    totalInactivitySecs := 60
    totalDurationSecs := 240
    extraInactivitySecs := 0
    extraInactivityComputed := false
    inactivityStatus := InactivityStatus.info
    stateOfCharge := 80 }

/-- The stopped version of `exampleTransaction`. -/
def exampleStoppedTransaction : Transaction :=
  { exampleTransaction with stop := some exampleStopBlock }

/-- The environment used by the concrete tests. -/
def exampleEnv : Env :=
  { now := 1000000
    authorizeStopOk := true
    saveTransactionFails := false
    inactivityLevel := fun _ => InactivityStatus.info }

/-- Storage holding the already-stopped transaction. -/
def exampleStorageStopped : Storage :=
  { transactions := [exampleStoppedTransaction]
    station := exampleStation
    consumptionsSaved := 5 }

/-- Storage holding the open transaction. -/
def exampleStorageOpen : Storage :=
  { transactions := [exampleTransaction]
    station := exampleStation
    consumptionsSaved := 5 }

/-- Storage with no transaction at all. -/
def exampleStorageEmpty : Storage :=
  { transactions := []
    station := exampleStation
    consumptionsSaved := 0 }

/-- A StopTransaction request for transaction 42. -/
def exampleStopRequest : StopTransactionRequest :=
  { transactionId := 42
    idTag := some "TAG-1"
    meterStop := 1200
    timestamp := 240000 }

/-- A registration token carrying neither an expiration date nor a revocation
date: under the claim's reading it is neither expired nor revoked. -/
def tokenWithoutExpiration : RegistrationToken :=
  { token := "TOK-1"
    expirationDate := none
    revocationDate := none
    siteAreaID := none }

/-- A valid registration token: a future expiration date, no revocation date,
and a site-area assignment. -/
def tokenValid : RegistrationToken :=
  { token := "TOK-2"
    expirationDate := some 2000000
    revocationDate := none
    siteAreaID := some "SA-1" }

/-- A site area with coordinates, named by `tokenValid`. -/
def exampleSiteArea : SiteArea :=
  { id := "SA-1"
    siteID := "SITE-1"
    coordinates := some (43, 7) }

/-- Boot environment with no station registered and the two tokens stored. -/
def exampleBootEnv : BootEnv :=
  { now := 1000000
    heartbeatIntervalSecs := 60
    bootRejectRetrySecs := 30
    tokens := [tokenWithoutExpiration, tokenValid]
    siteAreas := [exampleSiteArea]
    stations := [] }

/-- Boot environment already holding `exampleStation`. -/
def exampleBootEnvKnown : BootEnv :=
  { exampleBootEnv with stations := [exampleStation] }

/-- Boot headers presenting the expiration-less token for a new station id. -/
def headersTokenWithoutExpiration : BootHeaders :=
  { chargeBoxIdentity := "CS-NEW"
    token := some "TOK-1"
    ocppVersion := OCPPVersion.v16 }

/-- Boot headers presenting the valid token for a new station id. -/
def headersTokenValid : BootHeaders :=
  { chargeBoxIdentity := "CS-NEW"
    token := some "TOK-2"
    ocppVersion := OCPPVersion.v16 }

/-- Boot headers for the already-registered station id. -/
def headersKnownStation : BootHeaders :=
  { chargeBoxIdentity := "CS-1"
    token := none
    ocppVersion := OCPPVersion.v16 }

/-- A boot notification matching `exampleStation` except for the serial number. -/
def bootMismatchedSerial : BootNotificationRequest :=
  { chargePointVendor := "Schneider"
    chargePointModel := "MODEL-X"
    chargePointSerialNumber := some "SER-2"
    chargeBoxSerialNumber := none
    firmwareVersion := some "2.0" }

/-- A boot notification for a brand-new station. -/
def bootNewStation : BootNotificationRequest :=
  { chargePointVendor := "Delta"
    chargePointModel := "MODEL-Y"
    chargePointSerialNumber := some "SER-9"
    chargeBoxSerialNumber := none
    firmwareVersion := some "3.0" }

/-- The meter-value environment of an AC three-phase connector. -/
def exampleMVEnv : MeterValueEnv :=
  { currentType := CurrentType.ac
    numberOfConnectedPhases := 3 }

/-- An `Energy.Active.Import.Register` meter value at `Transaction.End`. -/
def exampleEndEnergyValue : NormalizedMeterValue :=
  { timestamp := 240000
    value := 1200
    attr := { context := ReadingContext.transactionEnd
              measurand := Measurand.energyActiveImportRegister
              phase := none
              unitOfMeasure := UnitOfMeasure.wattHour } }

/-- An Available status notification whose timestamp lies before the stop
timestamp of `exampleStopBlock` (a station clock quirk). -/
def exampleEarlyAvailable : StatusNotification :=
  { connectorId := 1
    status := ChargePointStatus.available
    errorCode := "NoError"
    info := ""
    timestamp := some 234000 }

/-- An Available status notification arriving after the stop timestamp. -/
def exampleLateAvailable : StatusNotification :=
  { connectorId := 1
    status := ChargePointStatus.available
    errorCode := "NoError"
    info := ""
    timestamp := some 250000 }

/-- A periodic energy sample at t = 60 s reading 100 Wh. -/
def mvPeriodic60 : NormalizedMeterValue :=
  { timestamp := 60000
    value := 100
    attr := { context := ReadingContext.samplePeriodic
              measurand := Measurand.energyActiveImportRegister
              phase := none
              unitOfMeasure := UnitOfMeasure.wattHour } }

/-- A `Sample.Clock` energy sample at t = 90 s repeating the 100 Wh reading. -/
def mvClock90 : NormalizedMeterValue :=
  { timestamp := 90000
    value := 100
    attr := { context := ReadingContext.sampleClock
              measurand := Measurand.energyActiveImportRegister
              phase := none
              unitOfMeasure := UnitOfMeasure.wattHour } }

/-- A periodic energy sample at t = 120 s reading 200 Wh. -/
def mvPeriodic120 : NormalizedMeterValue :=
  { timestamp := 120000
    value := 200
    attr := { context := ReadingContext.samplePeriodic
              measurand := Measurand.energyActiveImportRegister
              phase := none
              unitOfMeasure := UnitOfMeasure.wattHour } }

/-- The meter-value batch with a `Sample.Clock` sample between two periodic ones. -/
def exampleClockBatch : List NormalizedMeterValue :=
  [mvPeriodic60, mvClock90, mvPeriodic120]

/-- A fresh transaction (anchor at the start) for the consumption builder. -/
def exampleFreshTransaction : Transaction :=
  { exampleTransaction with
    numberOfMeterValues := 0
    lastConsumption := none
    currentTotalConsumptionWh := 0 }

/-- A StopTransaction request carrying the buggy-firmware transaction id 0. -/
def exampleZeroStopRequest : StopTransactionRequest :=
  { transactionId := 0
    idTag := none
    meterStop := 0
    timestamp := 0 }

theorem freeConnector_clears (cs : ChargingStation) (connectorId : Nat) :
    ∀ c ∈ (checkAndFreeChargingStationConnector cs connectorId).connectors,
      c.connectorId = connectorId → c.currentTransactionID = 0 := by
  intro c hc hcid
  unfold checkAndFreeChargingStationConnector at hc
  simp only [List.mem_map] at hc
  obtain ⟨x, _, hx⟩ := hc
  by_cases h : x.connectorId == connectorId
  · rw [if_pos h] at hx
    rw [← hx]
  · rw [if_neg h] at hx
    subst hx
    exact absurd (by exact beq_iff_eq.mpr hcid) h

/-- C9: a StopTransaction request with `transactionId = 0` is answered
`{idTagInfo: {status: Accepted}}` and performs no side effect: the storage —
transactions, station (hence every connector) and consumption count — is
returned unchanged. -/
theorem claimC9_stopTransactionIdZero (env : Env) (stopReq : StopTransactionRequest)
    (isSoftStop stoppedByCentralSystem : Bool) (storage : Storage)
    (hzero : stopReq.transactionId = 0) :
    handleStopTransaction env stopReq isSoftStop stoppedByCentralSystem storage =
      ({ status := OCPPAuthorizationStatus.accepted }, storage) := by
  unfold handleStopTransaction
  rw [if_pos hzero]

theorem claimC9_witness :
    exampleZeroStopRequest.transactionId = 0 ∧
    handleStopTransaction exampleEnv exampleZeroStopRequest false false exampleStorageOpen =
      ({ status := OCPPAuthorizationStatus.accepted }, exampleStorageOpen) :=
  ⟨rfl, claimC9_stopTransactionIdZero exampleEnv exampleZeroStopRequest false false
    exampleStorageOpen rfl⟩

/-- C1: a StopTransaction request whose transaction exists and already carries a
`stop` block is answered `{idTagInfo: {status: Invalid}}` while the storage —
transaction, station, connectors, consumption count — is returned unchanged:
the already-stopped check raises before the connector is freed or anything is
written. -/
theorem claimC1_stopTransactionAlreadyStopped (env : Env) (stopReq : StopTransactionRequest)
    (isSoftStop stoppedByCentralSystem : Bool) (storage : Storage) (t : Transaction)
    (hid : stopReq.transactionId ≠ 0)
    (hfind : findTransaction storage.transactions stopReq.transactionId = some t)
    (hstopped : t.stop.isSome = true) :
    handleStopTransaction env stopReq isSoftStop stoppedByCentralSystem storage =
      ({ status := OCPPAuthorizationStatus.invalid }, storage) := by
  unfold handleStopTransaction
  rw [if_neg hid, hfind]
  dsimp only
  by_cases hauth : stoppedByCentralSystem = false ∧ env.authorizeStopOk = false
  · rw [if_pos hauth]
  · rw [if_neg hauth, if_pos hstopped]

theorem claimC1_witness :
    exampleStopRequest.transactionId ≠ 0 ∧
    findTransaction exampleStorageStopped.transactions exampleStopRequest.transactionId =
      some exampleStoppedTransaction ∧
    exampleStoppedTransaction.stop.isSome = true ∧
    handleStopTransaction exampleEnv exampleStopRequest false false exampleStorageStopped =
      ({ status := OCPPAuthorizationStatus.invalid }, exampleStorageStopped) :=
  ⟨by decide, by decide, rfl,
    claimC1_stopTransactionAlreadyStopped exampleEnv exampleStopRequest false false
      exampleStorageStopped exampleStoppedTransaction (by decide) (by decide) rfl⟩

/-- C10: on an existing open transaction the handler frees the connector and
persists the station before it builds the closing consumption and writes the
`stop` block; when a later step (here: the transaction write) fails, the
response is `{idTagInfo: {status: Invalid}}` while the freed connector stays
persisted (`currentTransactionID = 0`), a consumption row is already written
and the stored transaction still has no `stop` block — the error path is not
atomic. -/
theorem claimC10_stopTransactionErrorPathNotAtomic (env : Env)
    (stopReq : StopTransactionRequest) (storage : Storage) (t : Transaction)
    (hid : stopReq.transactionId ≠ 0)
    (hfind : findTransaction storage.transactions stopReq.transactionId = some t)
    (hopen : t.stop.isSome = false)
    (hauth : env.authorizeStopOk = true)
    (hfail : env.saveTransactionFails = true) :
    (handleStopTransaction env stopReq false false storage).1.status =
      OCPPAuthorizationStatus.invalid ∧
    (handleStopTransaction env stopReq false false storage).2.station =
      { checkAndFreeChargingStationConnector storage.station t.connectorId with
        lastSeen := env.now } ∧
    (handleStopTransaction env stopReq false false storage).2.transactions =
      storage.transactions ∧
    (handleStopTransaction env stopReq false false storage).2.consumptionsSaved =
      storage.consumptionsSaved + 1 ∧
    (∀ c ∈ (handleStopTransaction env stopReq false false storage).2.station.connectors,
      c.connectorId = t.connectorId → c.currentTransactionID = 0) := by
  have hnauth : ¬(false = false ∧ env.authorizeStopOk = false) := by
    intro h
    rw [hauth] at h
    exact absurd h.2 (by simp)
  have hres : handleStopTransaction env stopReq false false storage =
      ({ status := OCPPAuthorizationStatus.invalid },
        { storage with
          station := { checkAndFreeChargingStationConnector storage.station t.connectorId with
            lastSeen := env.now }
          consumptionsSaved := storage.consumptionsSaved + 1 }) := by
    unfold handleStopTransaction
    rw [if_neg hid, hfind]
    dsimp only
    rw [if_neg hnauth, if_neg (by rw [hopen]; simp), if_pos hfail]
  rw [hres]
  refine ⟨rfl, rfl, rfl, rfl, ?_⟩
  intro c hc hcid
  exact freeConnector_clears storage.station t.connectorId c hc hcid

theorem claimC10_witness :
    exampleStopRequest.transactionId ≠ 0 ∧
    findTransaction exampleStorageOpen.transactions exampleStopRequest.transactionId =
      some exampleTransaction ∧
    exampleTransaction.stop.isSome = false ∧
    ({ exampleEnv with saveTransactionFails := true }).authorizeStopOk = true ∧
    ({ exampleEnv with saveTransactionFails := true }).saveTransactionFails = true ∧
    (handleStopTransaction { exampleEnv with saveTransactionFails := true }
        exampleStopRequest false false exampleStorageOpen).1.status =
      OCPPAuthorizationStatus.invalid ∧
    (handleStopTransaction { exampleEnv with saveTransactionFails := true }
        exampleStopRequest false false exampleStorageOpen).2.transactions =
      exampleStorageOpen.transactions :=
  ⟨by decide, by decide, rfl, rfl, rfl,
    (claimC10_stopTransactionErrorPathNotAtomic
      { exampleEnv with saveTransactionFails := true } exampleStopRequest
      exampleStorageOpen exampleTransaction (by decide) (by decide) rfl rfl rfl).1,
    (claimC10_stopTransactionErrorPathNotAtomic
      { exampleEnv with saveTransactionFails := true } exampleStopRequest
      exampleStorageOpen exampleTransaction (by decide) (by decide) rfl rfl rfl).2.2.1⟩

theorem validateRegistrationToken_some_iff (env : BootEnv) (headers : BootHeaders)
    (token : RegistrationToken) :
    validateRegistrationToken env headers = some token ↔
      ∃ tk e, headers.token = some tk ∧ lookupToken env.tokens tk = some token ∧
        token.expirationDate = some e ∧ env.now ≤ e ∧ token.revocationDate = none := by
  unfold validateRegistrationToken
  constructor
  · intro h
    cases h1 : headers.token with
    | none => rw [h1] at h; exact Option.noConfusion h
    | some tk =>
      rw [h1] at h
      dsimp only at h
      cases h2 : lookupToken env.tokens tk with
      | none => rw [h2] at h; exact Option.noConfusion h
      | some tok =>
        rw [h2] at h
        dsimp only at h
        cases h3 : tok.expirationDate with
        | none => rw [h3] at h; exact Option.noConfusion h
        | some expiration =>
          rw [h3] at h
          dsimp only at h
          by_cases h4 : env.now > expiration
          · rw [if_pos h4] at h; exact Option.noConfusion h
          · rw [if_neg h4] at h
            by_cases h5 : tok.revocationDate.isSome = true
            · rw [if_pos h5] at h; exact Option.noConfusion h
            · rw [if_neg h5] at h
              have heq : tok = token := Option.some.inj h
              subst heq
              exact ⟨tk, expiration, rfl, h2, h3, by omega,
                Option.not_isSome_iff_eq_none.mp h5⟩
  · rintro ⟨tk, e, htk, hl, hexp, hle, hrev⟩
    rw [htk]
    dsimp only
    rw [hl]
    dsimp only
    rw [hexp]
    dsimp only
    rw [if_neg (by omega), if_neg (by rw [hrev]; simp)]

/-- C4: a BootNotification for a station id the tenant already knows is rejected —
with the persisted station collection unchanged — exactly when the reported
vendor or model differs from the stored one or both sides carry a serial number
and the serial numbers differ; otherwise the response is `Accepted`, its
`currentTime` the (new) reboot time and its `interval` the configured heartbeat
interval, and the persisted record is updated with the reported serial numbers
and firmware, the new `lastReboot`, a cleared `deleted` flag and
`registrationStatus = Accepted`. -/
theorem claimC4_bootNotificationExistingStation (env : BootEnv) (headers : BootHeaders)
    (boot : BootNotificationRequest) (cs : ChargingStation)
    (hfound : lookupStation env.stations headers.chargeBoxIdentity = some cs) :
    (bootAttributeMismatch cs boot = true →
      (handleBootNotification env headers boot).1.status = RegistrationStatus.rejected ∧
      (handleBootNotification env headers boot).2 = env.stations) ∧
    (bootAttributeMismatch cs boot = false →
      (handleBootNotification env headers boot).1 =
        { status := RegistrationStatus.accepted
          currentTime := env.now
          interval := env.heartbeatIntervalSecs } ∧
      (handleBootNotification env headers boot).2 = saveStation env.stations
        { cs with
          chargePointSerialNumber := boot.chargePointSerialNumber
          chargeBoxSerialNumber := boot.chargeBoxSerialNumber
          firmwareVersion := boot.firmwareVersion
          lastReboot := env.now
          registrationStatus := RegistrationStatus.accepted
          deleted := false
          ocppVersion := headers.ocppVersion
          lastSeen := env.now }) := by
  constructor
  · intro hmm
    unfold handleBootNotification
    rw [hfound]
    dsimp only
    rw [if_pos hmm]
    exact ⟨rfl, rfl⟩
  · intro hmm
    unfold handleBootNotification
    rw [hfound]
    dsimp only
    rw [if_neg (by rw [hmm]; exact Bool.false_ne_true)]
    exact ⟨rfl, rfl⟩

theorem claimC4_witness :
    lookupStation exampleBootEnvKnown.stations headersKnownStation.chargeBoxIdentity =
      some exampleStation ∧
    bootAttributeMismatch exampleStation bootMismatchedSerial = true ∧
    (handleBootNotification exampleBootEnvKnown headersKnownStation bootMismatchedSerial).1.status =
      RegistrationStatus.rejected ∧
    (handleBootNotification exampleBootEnvKnown headersKnownStation bootMismatchedSerial).2 =
      exampleBootEnvKnown.stations :=
  ⟨by decide, by decide,
    (claimC4_bootNotificationExistingStation exampleBootEnvKnown headersKnownStation
      bootMismatchedSerial exampleStation (by decide)).1 (by decide) |>.1,
    (claimC4_bootNotificationExistingStation exampleBootEnvKnown headersKnownStation
      bootMismatchedSerial exampleStation (by decide)).1 (by decide) |>.2⟩

/-- C3 counterexample: the claim reads "the boot is accepted if and only if a
token header is presented and the stored registration token exists, is not
expired, and is not revoked". `tokenWithoutExpiration` is stored, carries no
expiration date (so it is not expired) and no revocation date (so it is not
revoked), the header presents it and the station id is unknown — yet the
handler answers `Rejected`, because the source also requires
`token.expirationDate` to be set. -/
theorem claimC3_counterexample :
    (∃ tk token, headersTokenWithoutExpiration.token = some tk ∧
      lookupToken exampleBootEnv.tokens tk = some token ∧
      (∀ e, token.expirationDate = some e → ¬ exampleBootEnv.now > e) ∧
      token.revocationDate = none) ∧
    lookupStation exampleBootEnv.stations headersTokenWithoutExpiration.chargeBoxIdentity =
      none ∧
    (handleBootNotification exampleBootEnv headersTokenWithoutExpiration
      bootNewStation).1.status = RegistrationStatus.rejected :=
  ⟨⟨"TOK-1", tokenWithoutExpiration, rfl, by decide,
    fun e he => by simp [tokenWithoutExpiration] at he, rfl⟩, rfl, by decide⟩

/-- C3 (amended): for an unknown station id the boot is accepted if and only if
a token header is presented and the stored registration token exists, carries an
expiration date that has not passed, and carries no revocation date; on
acceptance the created station record — copied from the notification — has
`registrationStatus = Accepted` and `issuer = true`, and when the token names a
stored site area the record is linked to it and copies its coordinates. -/
theorem claimC3_bootNotificationNewStation (env : BootEnv) (headers : BootHeaders)
    (boot : BootNotificationRequest)
    (hnew : lookupStation env.stations headers.chargeBoxIdentity = none) :
    ((handleBootNotification env headers boot).1.status = RegistrationStatus.accepted ↔
      ∃ tk token e, headers.token = some tk ∧ lookupToken env.tokens tk = some token ∧
        token.expirationDate = some e ∧ env.now ≤ e ∧ token.revocationDate = none) ∧
    (∀ token, validateRegistrationToken env headers = some token →
      (handleBootNotification env headers boot).2 =
        saveStation env.stations (createStationFromBoot env headers boot token) ∧
      (createStationFromBoot env headers boot token).id = headers.chargeBoxIdentity ∧
      (createStationFromBoot env headers boot token).registrationStatus =
        RegistrationStatus.accepted ∧
      (createStationFromBoot env headers boot token).issuer = true ∧
      (createStationFromBoot env headers boot token).chargePointVendor =
        boot.chargePointVendor ∧
      (createStationFromBoot env headers boot token).chargePointModel =
        boot.chargePointModel ∧
      (∀ sid sa, token.siteAreaID = some sid → lookupSiteArea env.siteAreas sid = some sa →
        (createStationFromBoot env headers boot token).siteAreaID = some sid ∧
        (createStationFromBoot env headers boot token).siteID = some sa.siteID ∧
        (createStationFromBoot env headers boot token).coordinates = sa.coordinates)) := by
  constructor
  · cases hv : validateRegistrationToken env headers with
    | none =>
      constructor
      · intro hacc
        exfalso
        unfold handleBootNotification at hacc
        rw [hnew] at hacc
        dsimp only at hacc
        rw [hv] at hacc
        exact RegistrationStatus.noConfusion hacc
      · rintro ⟨tk, token, e, htk, hl, hexp, hle, hrev⟩
        have : validateRegistrationToken env headers = some token :=
          (validateRegistrationToken_some_iff env headers token).mpr
            ⟨tk, e, htk, hl, hexp, hle, hrev⟩
        rw [hv] at this
        exact Option.noConfusion this
    | some token =>
      constructor
      · intro _
        obtain ⟨tk, e, htk, hl, hexp, hle, hrev⟩ :=
          (validateRegistrationToken_some_iff env headers token).mp hv
        exact ⟨tk, token, e, htk, hl, hexp, hle, hrev⟩
      · intro _
        unfold handleBootNotification
        rw [hnew]
        dsimp only
        rw [hv]
  · intro token hv
    refine ⟨?_, ?_, ?_, ?_, ?_, ?_, ?_⟩
    · unfold handleBootNotification
      rw [hnew]
      dsimp only
      rw [hv]
    · unfold createStationFromBoot
      cases token.siteAreaID with
      | none => rfl
      | some sid =>
        dsimp only
        cases lookupSiteArea env.siteAreas sid <;> rfl
    · unfold createStationFromBoot
      cases token.siteAreaID with
      | none => rfl
      | some sid =>
        dsimp only
        cases lookupSiteArea env.siteAreas sid <;> rfl
    · unfold createStationFromBoot
      cases token.siteAreaID with
      | none => rfl
      | some sid =>
        dsimp only
        cases lookupSiteArea env.siteAreas sid <;> rfl
    · unfold createStationFromBoot
      cases token.siteAreaID with
      | none => rfl
      | some sid =>
        dsimp only
        cases lookupSiteArea env.siteAreas sid <;> rfl
    · unfold createStationFromBoot
      cases token.siteAreaID with
      | none => rfl
      | some sid =>
        dsimp only
        cases lookupSiteArea env.siteAreas sid <;> rfl
    · intro sid sa hsid hsa
      unfold createStationFromBoot
      rw [hsid]
      dsimp only
      rw [hsa]
      exact ⟨rfl, rfl, rfl⟩

theorem claimC3_witness :
    lookupStation exampleBootEnv.stations headersTokenValid.chargeBoxIdentity = none ∧
    validateRegistrationToken exampleBootEnv headersTokenValid = some tokenValid ∧
    ((handleBootNotification exampleBootEnv headersTokenValid bootNewStation).1.status =
      RegistrationStatus.accepted ∧
     (createStationFromBoot exampleBootEnv headersTokenValid bootNewStation
        tokenValid).registrationStatus = RegistrationStatus.accepted ∧
     (createStationFromBoot exampleBootEnv headersTokenValid bootNewStation
        tokenValid).issuer = true ∧
     (createStationFromBoot exampleBootEnv headersTokenValid bootNewStation
        tokenValid).coordinates = exampleSiteArea.coordinates) :=
  ⟨rfl, by decide,
    (claimC3_bootNotificationNewStation exampleBootEnv headersTokenValid bootNewStation
      rfl).1.mpr ⟨"TOK-2", tokenValid, 2000000, rfl, by decide, rfl, by decide, rfl⟩,
    ((claimC3_bootNotificationNewStation exampleBootEnv headersTokenValid bootNewStation
      rfl).2 tokenValid (by decide)).2.2.1,
    ((claimC3_bootNotificationNewStation exampleBootEnv headersTokenValid bootNewStation
      rfl).2 tokenValid (by decide)).2.2.2.1,
    (((claimC3_bootNotificationNewStation exampleBootEnv headersTokenValid bootNewStation
      rfl).2 tokenValid (by decide)).2.2.2.2.2.2 "SA-1" exampleSiteArea rfl
        (by decide)).2.2⟩

/-- C5 counterexample: the claim reads that the first `Transaction.End` meter
value zeroes "total and per-phase watts, volts, amps, and the state of charge".
On this concrete input — an open transaction with `currentStateOfCharge = 50`
receiving its first `Transaction.End` energy value — the clearing block runs
(`transactionEndReceived` is set and the instant watts are zeroed) but the
state of charge keeps its value 50 instead of 0: the source clears only the
fifteen watt/volt/amp fields. -/
theorem claimC5_counterexample :
    (updateTransactionWithMeterValues exampleMVEnv exampleTransaction
      [exampleEndEnergyValue]).transactionEndReceived = true ∧
    (updateTransactionWithMeterValues exampleMVEnv exampleTransaction
      [exampleEndEnergyValue]).currentInstantWatts = 0 ∧
    (updateTransactionWithMeterValues exampleMVEnv exampleTransaction
      [exampleEndEnergyValue]).currentInstantAmps = 0 ∧
    (updateTransactionWithMeterValues exampleMVEnv exampleTransaction
      [exampleEndEnergyValue]).currentInstantVolts = 0 ∧
    (updateTransactionWithMeterValues exampleMVEnv exampleTransaction
      [exampleEndEnergyValue]).currentStateOfCharge = 50 := by
  refine ⟨rfl, rfl, rfl, rfl, rfl⟩

/-- C5 (amended): the first meter value carrying the `Transaction.End` context —
processed while `transactionEndReceived` is still false — runs the clearing
block exactly once: the block sets `transactionEndReceived = true` and zeroes
the total, per-phase and DC instant watts, volts and amps, but leaves the state
of charge untouched; once `transactionEndReceived` holds, processing a meter
value never runs the clearing block again. -/
theorem claimC5_transactionEndZeroing (envMV : MeterValueEnv) (t : Transaction)
    (mv : NormalizedMeterValue) :
    (mv.attr.context = ReadingContext.transactionEnd → t.transactionEndReceived = false →
      processMeterValue envMV t mv = processMeterValueBody envMV (zeroInstantFields t) mv ∧
      (zeroInstantFields t).transactionEndReceived = true ∧
      (zeroInstantFields t).currentInstantWatts = 0 ∧
      (zeroInstantFields t).currentInstantWattsL1 = 0 ∧
      (zeroInstantFields t).currentInstantWattsL2 = 0 ∧
      (zeroInstantFields t).currentInstantWattsL3 = 0 ∧
      (zeroInstantFields t).currentInstantWattsDC = 0 ∧
      (zeroInstantFields t).currentInstantVolts = 0 ∧
      (zeroInstantFields t).currentInstantVoltsL1 = 0 ∧
      (zeroInstantFields t).currentInstantVoltsL2 = 0 ∧
      (zeroInstantFields t).currentInstantVoltsL3 = 0 ∧
      (zeroInstantFields t).currentInstantVoltsDC = 0 ∧
      (zeroInstantFields t).currentInstantAmps = 0 ∧
      (zeroInstantFields t).currentInstantAmpsL1 = 0 ∧
      (zeroInstantFields t).currentInstantAmpsL2 = 0 ∧
      (zeroInstantFields t).currentInstantAmpsL3 = 0 ∧
      (zeroInstantFields t).currentInstantAmpsDC = 0 ∧
      (zeroInstantFields t).currentStateOfCharge = t.currentStateOfCharge) ∧
    (t.transactionEndReceived = true →
      processMeterValue envMV t mv = processMeterValueBody envMV t mv) := by
  constructor
  · intro hctx hflag
    refine ⟨?_, rfl, rfl, rfl, rfl, rfl, rfl, rfl, rfl, rfl, rfl, rfl, rfl, rfl, rfl,
      rfl, rfl, rfl⟩
    unfold processMeterValue
    rw [if_pos ⟨hctx, hflag⟩]
  · intro hflag
    unfold processMeterValue
    rw [if_neg (by rw [hflag]; rintro ⟨_, h⟩; exact Bool.noConfusion h)]

theorem claimC5_witness :
    exampleEndEnergyValue.attr.context = ReadingContext.transactionEnd ∧
    exampleTransaction.transactionEndReceived = false ∧
    processMeterValue exampleMVEnv exampleTransaction exampleEndEnergyValue =
      processMeterValueBody exampleMVEnv (zeroInstantFields exampleTransaction)
        exampleEndEnergyValue ∧
    (zeroInstantFields exampleTransaction).currentStateOfCharge =
      exampleTransaction.currentStateOfCharge :=
  ⟨rfl, rfl,
    ((claimC5_transactionEndZeroing exampleMVEnv exampleTransaction
      exampleEndEnergyValue).1 rfl rfl).1,
    ((claimC5_transactionEndZeroing exampleMVEnv exampleTransaction
      exampleEndEnergyValue).1 rfl rfl).2.2.2.2.2.2.2.2.2.2.2.2.2.2.2.2.2⟩

/-- C6 counterexample: the claim reads that `extraInactivitySecs` — the
notification timestamp minus `stop.timestamp` — "is always ≥ 0". Concretely,
the stopped transaction carries `stop.timestamp = 240000` ms and the Available
status notification a station-supplied timestamp of 234000 ms; the handler
computes and stores `extraInactivitySecs = -6` (and sets
`extraInactivityComputed`), a negative value: the source never clamps the
difference. -/
theorem claimC6_counterexample :
    (((checkLastTransaction exampleEnv exampleEarlyAvailable exampleConnector
        exampleStorageStopped).transactions.head?.bind Transaction.stop).map
      TransactionStop.extraInactivitySecs) = some (-6) ∧
    (((checkLastTransaction exampleEnv exampleEarlyAvailable exampleConnector
        exampleStorageStopped).transactions.head?.bind Transaction.stop).map
      TransactionStop.extraInactivityComputed) = some true ∧
    (-6 : Int) < 0 := by
  refine ⟨rfl, rfl, by decide⟩

/-- C6 (amended): on an `Available` status notification carrying a timestamp,
when the connector's last transaction is completed and
`extraInactivityComputed` is not yet set, the handler stores
`extraInactivitySecs = floor((notificationTimestamp − stop.timestamp) / 1000)` —
nonnegative whenever the notification timestamp is at or after the stop
timestamp, but negative when the station dates the notification earlier — sets
`extraInactivityComputed = true` and reclassifies the inactivity severity from
the combined inactivity; and the computation runs at most once: any further
`Available` notification finding `extraInactivityComputed` set writes the
transaction back unchanged. -/
theorem claimC6_extraInactivity (env : Env) (sn : StatusNotification)
    (connector : Connector) (storage : Storage) (lt : Transaction)
    (sb : TransactionStop) (notifTs : Int)
    (hst : sn.status = ChargePointStatus.available)
    (hlast : getLastTransaction storage.transactions storage.station.id
      connector.connectorId = some lt)
    (hstop : lt.stop = some sb)
    (hnotyet : sb.extraInactivityComputed = false)
    (hts : sn.timestamp = some notifTs) :
    (checkLastTransaction env sn connector storage =
      { storage with transactions :=
          (replaceTransaction storage.transactions
            (transactionWithExtraInactivity env lt sb notifTs)) }) ∧
    (sb.timestamp ≤ notifTs → 0 ≤ (notifTs - sb.timestamp).fdiv 1000) ∧
    (∀ (sn2 : StatusNotification) (storage2 : Storage) (lt2 : Transaction)
        (sb2 : TransactionStop),
      sn2.status = ChargePointStatus.available →
      getLastTransaction storage2.transactions storage2.station.id
        connector.connectorId = some lt2 →
      lt2.stop = some sb2 → sb2.extraInactivityComputed = true →
      checkLastTransaction env sn2 connector storage2 =
        { storage2 with transactions := replaceTransaction storage2.transactions lt2 }) := by
  refine ⟨?_, ?_, ?_⟩
  · unfold checkLastTransaction
    rw [if_pos hst, hlast]
    dsimp only
    rw [hstop]
    dsimp only
    rw [hts]
    dsimp only
    rw [if_neg (by rw [hnotyet]; exact Bool.false_ne_true)]
    rfl
  · intro hle
    exact Int.fdiv_nonneg (by omega) (by omega)
  · intro sn2 storage2 lt2 sb2 hst2 hlast2 hstop2 hdone2
    unfold checkLastTransaction
    rw [if_pos hst2, hlast2]
    dsimp only
    rw [hstop2]
    dsimp only
    cases hts2 : sn2.timestamp with
    | none => rfl
    | some ts2 =>
      dsimp only
      rw [if_pos hdone2]

theorem claimC6_witness :
    exampleLateAvailable.status = ChargePointStatus.available ∧
    getLastTransaction exampleStorageStopped.transactions
      exampleStorageStopped.station.id exampleConnector.connectorId =
      some exampleStoppedTransaction ∧
    exampleStoppedTransaction.stop = some exampleStopBlock ∧
    exampleStopBlock.extraInactivityComputed = false ∧
    exampleLateAvailable.timestamp = some 250000 ∧
    (exampleStopBlock.timestamp ≤ 250000 →
      0 ≤ ((250000 : Int) - exampleStopBlock.timestamp).fdiv 1000) ∧
    checkLastTransaction exampleEnv exampleLateAvailable exampleConnector
        exampleStorageStopped =
      { exampleStorageStopped with
        transactions :=
          (replaceTransaction exampleStorageStopped.transactions
            (transactionWithExtraInactivity exampleEnv exampleStoppedTransaction
              exampleStopBlock 250000)) } :=
  ⟨rfl, by decide, rfl, rfl, rfl,
    (claimC6_extraInactivity exampleEnv exampleLateAvailable exampleConnector
      exampleStorageStopped exampleStoppedTransaction exampleStopBlock 250000
      rfl (by decide) rfl rfl rfl).2.1,
    (claimC6_extraInactivity exampleEnv exampleLateAvailable exampleConnector
      exampleStorageStopped exampleStoppedTransaction exampleStopBlock 250000
      rfl (by decide) rfl rfl rfl).1⟩

/-- C7: the end-of-charge policy of `checkNotificationEndOfCharge` fires nothing
on a stopped transaction, nor when fewer than two meter values or no positive
cumulative consumption exist; on an open transaction with more than one meter
value and positive consumption: with the end-of-charge notification enabled,
end-of-charge is notified exactly when the state of charge is 100 or every one
of the (up to) three most recent consumption rows consumed nothing while its
limit source is not a charging profile or its limit amps reach the per-phase
minimum times the connected phases — and the optimal-charge notification never
fires on that branch; with the end-of-charge notification disabled,
optimal-charge-reached is notified exactly when it is enabled and the state of
charge is at or above the configured threshold. -/
theorem claimC7_checkNotificationEndOfCharge (cfg : EndOfChargeConfig)
    (minLimitPerPhase numberOfConnectedPhases : Int) (t : Transaction)
    (lastThree : List ConsumptionRec) :
    (t.stop.isSome = true →
      checkNotificationEndOfCharge cfg minLimitPerPhase numberOfConnectedPhases t
        lastThree = none) ∧
    (t.stop.isSome = false → (t.numberOfMeterValues ≤ 1 ∨ t.currentTotalConsumptionWh ≤ 0) →
      checkNotificationEndOfCharge cfg minLimitPerPhase numberOfConnectedPhases t
        lastThree = none) ∧
    (t.stop.isSome = false → 1 < t.numberOfMeterValues → 0 < t.currentTotalConsumptionWh →
      (cfg.notifEndOfChargeEnabled = true →
        (checkNotificationEndOfCharge cfg minLimitPerPhase numberOfConnectedPhases t
            lastThree = some ChargeNotification.endOfCharge ↔
          (t.currentStateOfCharge = 100 ∨
            ∀ c ∈ lastThree, c.consumptionWh = 0 ∧
              (c.limitSource ≠ ConnectorCurrentLimitSource.chargingProfile ∨
                minLimitPerPhase * numberOfConnectedPhases ≤ c.limitAmps))) ∧
        checkNotificationEndOfCharge cfg minLimitPerPhase numberOfConnectedPhases t
          lastThree ≠ some ChargeNotification.optimalChargeReached) ∧
      (cfg.notifEndOfChargeEnabled = false →
        (checkNotificationEndOfCharge cfg minLimitPerPhase numberOfConnectedPhases t
            lastThree = some ChargeNotification.optimalChargeReached ↔
          (cfg.notifBeforeEndOfChargeEnabled = true ∧
            cfg.notifBeforeEndOfChargePercent ≤ t.currentStateOfCharge)) ∧
        checkNotificationEndOfCharge cfg minLimitPerPhase numberOfConnectedPhases t
          lastThree ≠ some ChargeNotification.endOfCharge)) := by
  have hall : lastThree.all
      (endOfChargeIntervalOk minLimitPerPhase numberOfConnectedPhases) = true ↔
      ∀ c ∈ lastThree, c.consumptionWh = 0 ∧
        (c.limitSource ≠ ConnectorCurrentLimitSource.chargingProfile ∨
          minLimitPerPhase * numberOfConnectedPhases ≤ c.limitAmps) := by
    rw [List.all_eq_true]
    constructor
    · intro h c hc
      have := h c hc
      unfold endOfChargeIntervalOk at this
      simp only [Bool.and_eq_true, Bool.or_eq_true, beq_iff_eq, Bool.not_eq_true',
        beq_eq_false_iff_ne, decide_eq_true_eq] at this
      exact this
    · intro h c hc
      unfold endOfChargeIntervalOk
      simp only [Bool.and_eq_true, Bool.or_eq_true, beq_iff_eq, Bool.not_eq_true',
        beq_eq_false_iff_ne, decide_eq_true_eq]
      exact h c hc
  refine ⟨?_, ?_, ?_⟩
  · intro hstopped
    unfold checkNotificationEndOfCharge
    rw [if_pos hstopped]
  · intro hopen hsmall
    unfold checkNotificationEndOfCharge
    rw [if_neg (by rw [hopen]; exact Bool.false_ne_true)]
    rw [if_neg (by rintro ⟨h1, h2⟩; rcases hsmall with h | h <;> omega)]
  · intro hopen hnum hcons
    have hguard : t.numberOfMeterValues > 1 ∧ t.currentTotalConsumptionWh > 0 :=
      ⟨hnum, hcons⟩
    constructor
    · intro hen
      unfold checkNotificationEndOfCharge
      rw [if_neg (by rw [hopen]; exact Bool.false_ne_true), if_pos hguard,
        if_pos ⟨hen, hcons⟩]
      by_cases hsoc : t.currentStateOfCharge = 100
      · rw [if_pos hsoc]
        exact ⟨⟨fun _ => Or.inl hsoc, fun _ => rfl⟩, by decide⟩
      · rw [if_neg hsoc]
        by_cases hz : lastThree.all
            (endOfChargeIntervalOk minLimitPerPhase numberOfConnectedPhases) = true
        · rw [if_pos hz]
          exact ⟨⟨fun _ => Or.inr (hall.mp hz), fun _ => rfl⟩, by decide⟩
        · rw [if_neg hz]
          constructor
          · constructor
            · intro h; exact Option.noConfusion h
            · rintro (h | h)
              · exact absurd h hsoc
              · exact absurd (hall.mpr h) hz
          · intro h; exact Option.noConfusion h
    · intro hen
      unfold checkNotificationEndOfCharge
      rw [if_neg (by rw [hopen]; exact Bool.false_ne_true), if_pos hguard,
        if_neg (by rw [hen]; rintro ⟨h, _⟩; exact Bool.noConfusion h)]
      by_cases hopt : cfg.notifBeforeEndOfChargeEnabled = true ∧
          cfg.notifBeforeEndOfChargePercent ≤ t.currentStateOfCharge
      · rw [if_pos hopt]
        exact ⟨⟨fun _ => hopt, fun _ => rfl⟩, by decide⟩
      · rw [if_neg hopt]
        exact ⟨⟨fun h => Option.noConfusion h, fun h => absurd h hopt⟩,
          fun h => Option.noConfusion h⟩

theorem claimC7_witness :
    exampleTransaction.stop.isSome = false ∧
    1 < exampleTransaction.numberOfMeterValues ∧
    (0 : Int) < exampleTransaction.currentTotalConsumptionWh ∧
    checkNotificationEndOfCharge
      { notifEndOfChargeEnabled := true
        notifBeforeEndOfChargeEnabled := true
        notifBeforeEndOfChargePercent := 80 } 13 3
      { exampleTransaction with currentStateOfCharge := 100 } [] =
      some ChargeNotification.endOfCharge :=
  ⟨rfl, by decide, by decide,
    (((claimC7_checkNotificationEndOfCharge
      { notifEndOfChargeEnabled := true
        notifBeforeEndOfChargeEnabled := true
        notifBeforeEndOfChargePercent := 80 } 13 3
      { exampleTransaction with currentStateOfCharge := 100 } []).2.2
        rfl (by decide) (by decide)).1 rfl).1.mpr (Or.inl rfl)⟩

/-- C8 (the filter evaluated at the failing input): for a non-ABB station the
meter-value filter returns the batch unchanged even though it contains a
`Sample.Clock` value — the async callback hands `Array.prototype.filter` a
(truthy) Promise, so nothing is ever removed, although the callback logs
"Removed Meter Value" — and the spec's consumption builder then derives a
consumption interval from the Clock sample (three intervals, one of them ending
at its 90000 ms timestamp), whereas the removal the source intends and the spec
describes would leave two intervals spanning the periodic samples only. -/
theorem claimC8_clockFilterKeepsClockValues :
    filterMeterValuesOnSpecificChargingStations exampleStation exampleClockBatch =
      exampleClockBatch ∧
    (exampleClockBatch.filter
      (fun mv => mv.attr.context == ReadingContext.sampleClock)).length = 1 ∧
    buildConsumptions exampleFreshTransaction
      (filterMeterValuesOnSpecificChargingStations exampleStation exampleClockBatch) =
      [{ startedAt := 0, endedAt := 60000, consumptionWh := 100,
         cumulatedConsumptionWh := 100 },
       { startedAt := 60000, endedAt := 90000, consumptionWh := 0,
         cumulatedConsumptionWh := 100 },
       { startedAt := 90000, endedAt := 120000, consumptionWh := 100,
         cumulatedConsumptionWh := 200 }] ∧
    buildConsumptions exampleFreshTransaction (intendedClockFilter exampleClockBatch) =
      [{ startedAt := 0, endedAt := 60000, consumptionWh := 100,
         cumulatedConsumptionWh := 100 },
       { startedAt := 60000, endedAt := 120000, consumptionWh := 100,
         cumulatedConsumptionWh := 200 }] := by
  refine ⟨by decide, by decide, by decide, by decide⟩

theorem countP_le_of_imp {α : Type} (p q : α → Bool) :
    ∀ l : List α, (∀ x, x ∈ l → q x = true → p x = true) → l.countP q ≤ l.countP p := by
  intro l
  induction l with
  | nil => intro _; exact Nat.le_refl _
  | cons a l ih =>
    intro h
    rw [List.countP_cons, List.countP_cons]
    have h1 := ih (fun x hx hq => h x (List.mem_cons_of_mem a hx) hq)
    by_cases hq : q a = true
    · rw [if_pos hq, if_pos (h a (List.mem_cons_self a l) hq)]
      omega
    · rw [if_neg hq]
      by_cases hp : p a = true
      · rw [if_pos hp]; omega
      · rw [if_neg hp]; omega

theorem countP_lt_of_witness {α : Type} (p q : α → Bool) :
    ∀ l : List α, (∀ x, x ∈ l → q x = true → p x = true) →
      ∀ a, a ∈ l → p a = true → q a = false → l.countP q < l.countP p := by
  intro l
  induction l with
  | nil => intro _ a ha; exact absurd ha (List.not_mem_nil a)
  | cons b l ih =>
    intro h a ha hpa hqa
    rw [List.countP_cons, List.countP_cons]
    rcases List.mem_cons.mp ha with heq | hmem
    · subst heq
      have h1 := countP_le_of_imp p q l (fun x hx hq => h x (List.mem_cons_of_mem a hx) hq)
      rw [hqa, hpa]
      simp only [Bool.false_eq_true, if_false, if_true]
      omega
    · have h1 := ih (fun x hx hq => h x (List.mem_cons_of_mem b hx) hq) a hmem hpa hqa
      have h2 : (if q b = true then 1 else 0) ≤ (if p b = true then 1 else 0) := by
        by_cases hqb : q b = true
        · rw [if_pos hqb, if_pos (h b (List.mem_cons_self b l) hqb)]
        · rw [if_neg hqb]
          by_cases hpb : p b = true
          · rw [if_pos hpb]; omega
          · rw [if_neg hpb]
      omega

theorem isActiveOn_eq_false_of_stop (cb : String) (cid : Nat) (t1 : Transaction)
    (h : t1.stop.isSome = true) : isActiveOn cb cid t1 = false := by
  obtain ⟨v, hv⟩ := Option.isSome_iff_exists.mp h
  unfold isActiveOn
  rw [hv]
  simp

theorem countActive_delete_lt (storage : Storage) (cb : String) (cid : Nat)
    (t : Transaction) (hmem : t ∈ storage.transactions)
    (hact : isActiveOn cb cid t = true) :
    countActive (deleteTransaction storage t.id).transactions cb cid <
      countActive storage.transactions cb cid := by
  unfold deleteTransaction countActive
  dsimp only
  rw [List.countP_filter]
  refine countP_lt_of_witness (isActiveOn cb cid)
    (fun a => isActiveOn cb cid a && !(a.id == t.id)) storage.transactions
    (fun x _ hx => ((Bool.and_eq_true _ _).mp hx).1) t hmem hact ?_
  simp [hact]

theorem countActive_replace_lt (transactions : List Transaction) (cb : String) (cid : Nat)
    (t t1 : Transaction) (hmem : t ∈ transactions) (hact : isActiveOn cb cid t = true)
    (hid : t.id = t1.id) (hstopped : t1.stop.isSome = true) :
    countActive (replaceTransaction transactions t1) cb cid <
      countActive transactions cb cid := by
  unfold countActive replaceTransaction
  rw [List.countP_map]
  refine countP_lt_of_witness (isActiveOn cb cid)
    ((isActiveOn cb cid) ∘ fun x => if x.id == t1.id then t1 else x) transactions
    ?_ t hmem hact ?_
  · intro x _ hx
    simp only [Function.comp] at hx
    by_cases hxid : x.id == t1.id
    · rw [if_pos hxid, isActiveOn_eq_false_of_stop cb cid t1 hstopped] at hx
      exact Bool.noConfusion hx
    · rw [if_neg hxid] at hx
      exact hx
  · simp only [Function.comp]
    rw [if_pos (beq_iff_eq.mpr hid)]
    exact isActiveOn_eq_false_of_stop cb cid t1 hstopped

theorem handleStopTransaction_transactions_shape (env : Env)
    (stopReq : StopTransactionRequest) (isSoftStop stoppedByCentralSystem : Bool)
    (storage : Storage) :
    ((handleStopTransaction env stopReq isSoftStop stoppedByCentralSystem
        storage).2.transactions = storage.transactions) ∨
    (∃ tr t1, findTransaction storage.transactions stopReq.transactionId = some tr ∧
      (handleStopTransaction env stopReq isSoftStop stoppedByCentralSystem
        storage).2.transactions = replaceTransaction storage.transactions t1 ∧
      t1.id = tr.id ∧ t1.stop.isSome = true) := by
  unfold handleStopTransaction
  by_cases h0 : stopReq.transactionId = 0
  · rw [if_pos h0]; left; rfl
  · rw [if_neg h0]
    cases hf : findTransaction storage.transactions stopReq.transactionId with
    | none => left; rfl
    | some tr =>
      dsimp only
      by_cases hauth : stoppedByCentralSystem = false ∧ env.authorizeStopOk = false
      · rw [if_pos hauth]; left; rfl
      · rw [if_neg hauth]
        by_cases hstopped : tr.stop.isSome = true
        · rw [if_pos hstopped]; left; rfl
        · rw [if_neg hstopped]
          by_cases hfail : env.saveTransactionFails = true
          · rw [if_pos hfail]; left; rfl
          · rw [if_neg hfail]
            right
            exact ⟨tr, _, rfl, rfl, rfl, rfl⟩

theorem stopOrDelete_mono (env : Env) (cb : String) (cid : Nat) :
    ∀ (fuel fuel2 : Nat) (lc : Option Nat) (storage r : Storage),
      fuel ≤ fuel2 →
      stopOrDeleteActiveTransactions env cb cid fuel lc storage = some r →
      stopOrDeleteActiveTransactions env cb cid fuel2 lc storage = some r := by
  intro fuel
  induction fuel with
  | zero =>
    intro fuel2 lc storage r _ h
    unfold stopOrDeleteActiveTransactions at h
    exact Option.noConfusion h
  | succ f ih =>
    intro fuel2 lc storage r hle h
    obtain ⟨f2, rfl⟩ : ∃ f2, fuel2 = f2 + 1 := ⟨fuel2 - 1, by omega⟩
    unfold stopOrDeleteActiveTransactions at h ⊢
    cases hA : getActiveTransaction storage.transactions cb cid with
    | none =>
      rw [hA] at h
      exact h
    | some t =>
      rw [hA] at h
      dsimp only at h ⊢
      by_cases hlc : lc = some t.id
      · rw [if_pos hlc] at h ⊢; exact h
      · rw [if_neg hlc] at h ⊢
        by_cases hcons : t.currentTotalConsumptionWh ≤ 0
        · rw [if_pos hcons] at h ⊢
          exact ih f2 (some t.id) (deleteTransaction storage t.id) r (by omega) h
        · rw [if_neg hcons] at h ⊢
          exact ih f2 (some t.id)
            (handleStopTransaction env (softStopRequest t) false true storage).2 r
            (by omega) h

theorem stopOrDelete_sufficient (env : Env) (cb : String) (cid : Nat) :
    ∀ (n : Nat) (storage : Storage) (lc : Option Nat),
      countActive storage.transactions cb cid ≤ n →
      (stopOrDeleteActiveTransactions env cb cid (2 * n + 2) lc storage).isSome := by
  intro n
  induction n with
  | zero =>
    intro storage lc hc
    have h0 : countActive storage.transactions cb cid = 0 := Nat.le_zero.mp hc
    have hnone : getActiveTransaction storage.transactions cb cid = none := by
      unfold getActiveTransaction
      rw [List.find?_eq_none]
      intro x hx hpx
      unfold countActive at h0
      exact absurd hpx (List.countP_eq_zero.mp h0 x hx)
    rw [show 2 * 0 + 2 = 1 + 1 from rfl]
    unfold stopOrDeleteActiveTransactions
    rw [hnone]
    rfl
  | succ n ih =>
    intro storage lc hc
    rw [show 2 * (n + 1) + 2 = (2 * n + 3) + 1 from by omega]
    unfold stopOrDeleteActiveTransactions
    cases hA : getActiveTransaction storage.transactions cb cid with
    | none => rfl
    | some t =>
      dsimp only
      have hmem : t ∈ storage.transactions := by
        unfold getActiveTransaction at hA
        exact List.mem_of_find?_eq_some hA
      have hact : isActiveOn cb cid t = true := by
        unfold getActiveTransaction at hA
        exact List.find?_some hA
      by_cases hlc : lc = some t.id
      · rw [if_pos hlc]; rfl
      · rw [if_neg hlc]
        by_cases hcons : t.currentTotalConsumptionWh ≤ 0
        · rw [if_pos hcons]
          have hdec := countActive_delete_lt storage cb cid t hmem hact
          have hs := ih (deleteTransaction storage t.id) (some t.id) (by omega)
          obtain ⟨r, hr⟩ := Option.isSome_iff_exists.mp hs
          rw [stopOrDelete_mono env cb cid (2 * n + 2) (2 * n + 3) (some t.id)
            (deleteTransaction storage t.id) r (by omega) hr]
          rfl
        · rw [if_neg hcons]
          rcases handleStopTransaction_transactions_shape env (softStopRequest t)
              false true storage with hsame | ⟨tr, t1, hftr, hrepl, hid1, hstop1⟩
          · rw [show 2 * n + 3 = (2 * n + 2) + 1 from by omega]
            unfold stopOrDeleteActiveTransactions
            have hA2 : getActiveTransaction
                (handleStopTransaction env (softStopRequest t) false true
                  storage).2.transactions cb cid = some t := by
              rw [hsame]; exact hA
            rw [hA2]
            dsimp only
            rw [if_pos rfl]
            rfl
          · have htrid : tr.id = t.id := by
              unfold findTransaction at hftr
              have hp := List.find?_some hftr
              have h3 : tr.id = (softStopRequest t).transactionId := by
                simpa using hp
              simpa [softStopRequest] using h3
            have hdec : countActive (handleStopTransaction env (softStopRequest t)
                false true storage).2.transactions cb cid <
                countActive storage.transactions cb cid := by
              rw [hrepl]
              exact countActive_replace_lt storage.transactions cb cid t t1 hmem hact
                (by rw [hid1, htrid]) hstop1
            have hs := ih (handleStopTransaction env (softStopRequest t) false true
              storage).2 (some t.id) (by omega)
            obtain ⟨r, hr⟩ := Option.isSome_iff_exists.mp hs
            rw [stopOrDelete_mono env cb cid (2 * n + 2) (2 * n + 3) (some t.id)
              (handleStopTransaction env (softStopRequest t) false true storage).2 r
              (by omega) hr]
            rfl

/-- C2: one iteration of the active-transaction cleanup loop — invoked by
StartTransaction and by a StatusNotification reporting `Available` while
`currentTransactionID > 0` — returns when no active transaction exists for
`(station, connectorId)`; returns when the fetched transaction's id equals the
last seen id (the fixed-point defense); recurses on the storage with the
transaction deleted when its `currentTotalConsumptionWh ≤ 0`; and otherwise
recurses after stopping it through `handleStopTransaction` invoked in
stopped-by-central-system mode with `meterStop` equal to the last known
cumulative value; and under the fixed-point defense the loop always
terminates — a fuel of twice the number of active transactions plus two is
never exhausted. -/
theorem claimC2_stopOrDeleteActiveTransactions (env : Env) (cb : String) (cid : Nat)
    (fuel : Nat) (lc : Option Nat) (storage : Storage) :
    (getActiveTransaction storage.transactions cb cid = none →
      stopOrDeleteActiveTransactions env cb cid (fuel + 1) lc storage = some storage) ∧
    (∀ t, getActiveTransaction storage.transactions cb cid = some t →
      (lc = some t.id →
        stopOrDeleteActiveTransactions env cb cid (fuel + 1) lc storage = some storage) ∧
      (lc ≠ some t.id → t.currentTotalConsumptionWh ≤ 0 →
        stopOrDeleteActiveTransactions env cb cid (fuel + 1) lc storage =
          stopOrDeleteActiveTransactions env cb cid fuel (some t.id)
            (deleteTransaction storage t.id)) ∧
      (lc ≠ some t.id → 0 < t.currentTotalConsumptionWh →
        (softStopRequest t).meterStop = lastKnownCumulative t ∧
        stopOrDeleteActiveTransactions env cb cid (fuel + 1) lc storage =
          stopOrDeleteActiveTransactions env cb cid fuel (some t.id)
            (handleStopTransaction env (softStopRequest t) false true storage).2)) ∧
    (stopOrDeleteActiveTransactions env cb cid
        (2 * countActive storage.transactions cb cid + 2) lc storage).isSome := by
  refine ⟨?_, ?_, ?_⟩
  · intro hA
    unfold stopOrDeleteActiveTransactions
    rw [hA]
  · intro t hA
    refine ⟨?_, ?_, ?_⟩
    · intro hlc
      unfold stopOrDeleteActiveTransactions
      rw [hA]
      dsimp only
      rw [if_pos hlc]
    · intro hlc hcons
      rw [stopOrDeleteActiveTransactions.eq_def]
      dsimp only
      rw [hA]
      dsimp only
      rw [if_neg hlc, if_pos hcons]
    · intro hlc hcons
      refine ⟨rfl, ?_⟩
      rw [stopOrDeleteActiveTransactions.eq_def]
      dsimp only
      rw [hA]
      dsimp only
      rw [if_neg hlc, if_neg (by omega)]
  · exact stopOrDelete_sufficient env cb cid _ storage lc (Nat.le_refl _)

theorem claimC2_witness :
    getActiveTransaction exampleStorageEmpty.transactions "CS-1" 1 = none ∧
    stopOrDeleteActiveTransactions exampleEnv "CS-1" 1 1 none exampleStorageEmpty =
      some exampleStorageEmpty :=
  ⟨rfl, (claimC2_stopOrDeleteActiveTransactions exampleEnv "CS-1" 1 0 none
    exampleStorageEmpty).1 rfl⟩

end EvServer
